import Mathlib

/-!
Verification of the Metadata Template Language (MTL) evaluator of the mdinfo
repository (src/mdinfo/mtlparser.py) and of the JSON emitter helper
(src/mdinfo/mdinfo.py).

The parsed template tree (built by the textx grammar mtlparser.tx, which only
ships as a data file) is embedded as an inductive type mirroring the node
structure that `MTLParser._render_template_string` consumes.  The evaluator
itself is translated function by function from mtlparser.py; Python exceptions
become an `Except Err` monad, the mutable `self.variables` dict becomes an
explicitly threaded association list, and the two unbounded Python loops
(the `while True` fixed point of `expand_variables`, and the mutual recursion
between `_render_statement` and `_render_template_string`) take an explicit
fuel argument whose exhaustion is reported as the distinguished error
`Err.timeout` (Python would simply not terminate; adequate fuel never hits it).
Python floats are modelled exactly as rationals: the claims about numeric
comparisons only concern which strings convert and how the order relation is
used, never rounding.
-/

namespace Mdinfo

/-- Errors raised by the evaluator.  `syn` models `mtlparser.SyntaxError`,
`unknownField` models `mtlparser.UnknownFieldError`, `value` models a Python
`ValueError` escaping uncaught, and `timeout` models non-termination of a
Python loop (fuel exhaustion in this embedding). -/
inductive Err where
  | syn (msg : String)
  | unknownField (msg : String)
  | value (msg : String)
  | timeout
deriving Repr, DecidableEq

/-- The per-render variable store `self.variables`: insertion-ordered map from
variable name to list of string values, as a Python dict. -/
abbrev Vars := List (String × List String)

/-- Dict lookup `self.variables.get(name)`. -/
def varsGet (vars : Vars) (name : String) : Option (List String) :=
  (vars.find? (fun e => e.1 = name)).map (fun e => e.2)

/-- Dict assignment `self.variables[name] = vals`: replaces in place or appends. -/
def varsSet (vars : Vars) (name : String) (vals : List String) : Vars :=
  if (vars.find? (fun e => e.1 = name)).isSome then
    vars.map (fun e => if e.1 = name then (name, vals) else e)
  else
    vars ++ [(name, vals)]

/-! ### Python string primitives used by the evaluator

Several core `String` operations (`splitOn`, `startsWith`, byte-position
loops) are compiled by well-founded recursion and do not reduce inside the
kernel, so the primitives below are implemented over `List Char` by structural
recursion; each doc comment names the Python operation it models. -/

/-- Python whitespace characters recognised by `str.strip` / `str.split()`
(ASCII model). -/
def pyIsSpace (c : Char) : Bool :=
  c = ' ' || c = '\t' || c = '\n' || c = '\r' || c = '\x0b' || c = '\x0c'

/-- Worker for `pySplitOn`: split at each leftmost occurrence of `sep`; the
fuel is bounded by the string length (each step consumes a character when
`sep` is non-empty). -/
def splitOnGo (sep : List Char) : Nat → List Char → List Char → List (List Char)
  | 0, s, cur => [cur.reverse ++ s]
  | fuel + 1, s, cur =>
    match s with
    | [] => [cur.reverse]
    | c :: rest =>
      if sep.isPrefixOf (c :: rest) then
        cur.reverse :: splitOnGo sep fuel ((c :: rest).drop sep.length) []
      else
        splitOnGo sep fuel rest (c :: cur)

/-- Python `s.split(sep)` for a non-empty separator (also the semantics of
`str.replace` decomposition); for the empty separator it returns `[s]`,
matching `String.splitOn` (the evaluator never splits on an empty
separator). -/
def pySplitOn (s sep : String) : List String :=
  if sep = "" then [s]
  else (splitOnGo sep.data (s.data.length + 1) s.data []).map String.mk

/-- Python `s.replace(find, repl)` (all occurrences; an empty `find` inserts
`repl` at every character boundary, as in Python). -/
def pyReplace (s find repl : String) : String :=
  if find = "" then
    repl ++ String.join (s.data.map (fun c => String.singleton c ++ repl))
  else
    String.intercalate repl (pySplitOn s find)

/-- Substring occurrence test on character lists. -/
def listContainsSub (pat : List Char) : List Char → Bool
  | [] => pat = []
  | c :: rest => pat.isPrefixOf (c :: rest) || listContainsSub pat rest

/-- Python `c in v` substring test. -/
def pyContains (v c : String) : Bool :=
  if c = "" then true else listContainsSub c.data v.data

/-- Python `v.startswith(c)`. -/
def pyStartsWith (v c : String) : Bool := c.data.isPrefixOf v.data

/-- Python `v.endswith(c)`. -/
def pyEndsWith (v c : String) : Bool := c.data.isSuffixOf v.data

/-- Python `s.strip()` (ASCII whitespace model). -/
def pyStrip (s : String) : String :=
  String.mk (((s.data.dropWhile pyIsSpace).reverse.dropWhile pyIsSpace).reverse)

/-- Python `s.lower()` (ASCII model, as Lean's `Char.toLower` only affects
basic latin letters). -/
def pyLower (s : String) : String := String.mk (s.data.map Char.toLower)

/-- Python `s.upper()` (ASCII model). -/
def pyUpper (s : String) : String := String.mk (s.data.map Char.toUpper)

/-- Python `s.capitalize()` (first character uppercased, the rest lowercased;
ASCII model). -/
def pyCapitalize (s : String) : String :=
  match s.data with
  | [] => ""
  | c :: rest => String.mk (c.toUpper :: rest.map Char.toLower)

/-- Python `s.title()` (ASCII model): a letter starts uppercase unless the
previous character was a letter, remaining letters are lowercased. -/
def pyTitle (s : String) : String :=
  String.mk ((s.data.foldl
    (fun (acc : List Char × Bool) c =>
      if c.isAlpha then
        (acc.1 ++ [if acc.2 then c.toLower else c.toUpper], true)
      else
        (acc.1 ++ [c], false))
    ([], false)).1)

/-- Python `s.rstrip(")")`: remove all trailing close-parens. -/
def pyRstripParen (s : String) : String :=
  String.mk ((s.data.reverse.dropWhile (fun c => c = ')')).reverse)

/-- Split at every character satisfying `p` (keeping empty pieces). -/
def splitByGo (p : Char → Bool) : List Char → List Char → List (List Char)
  | [], cur => [cur.reverse]
  | c :: rest, cur =>
    if p c then cur.reverse :: splitByGo p rest []
    else splitByGo p rest (c :: cur)

/-- Python `s.split()` with no argument: split on whitespace runs, dropping
empty pieces. -/
def pyWhitespaceSplit (s : String) : List String :=
  ((splitByGo pyIsSpace s.data []).map String.mk).filter (fun v => v ≠ "")

/-- Digits to a natural number. -/
def digitsToNat (ds : List Char) : Nat :=
  ds.foldl (fun acc c => acc * 10 + (c.toNat - 48)) 0

/-- Python `int(s)` for a decimal literal: optional surrounding whitespace,
optional sign, at least one digit (underscore grouping and other bases are not
modelled).  `none` models the `ValueError`. -/
def pyInt (s : String) : Option Int :=
  let cs := (s.data.dropWhile pyIsSpace).reverse.dropWhile pyIsSpace |>.reverse
  let (sign, cs) : Int × List Char :=
    match cs with
    | '-' :: rest => (-1, rest)
    | '+' :: rest => (1, rest)
    | _ => (1, cs)
  if cs ≠ [] ∧ cs.all Char.isDigit then
    some (sign * (digitsToNat cs : Int))
  else
    none

/-- The exact value of a Python float produced by `float(decimal-literal)`:
`m * 10 ^ e`.  Conversions in the evaluator only feed such values to order
comparisons and truncation, which are exact on this representation (rounding
to binary floating point preserves the order of the small literals the claims
evaluate and is not modelled). -/
structure Dec where
  m : Int
  e : Int
deriving Repr, DecidableEq

/-- Scale two decimal values to a common exponent for exact comparison. -/
def decScale (a b : Dec) : Int × Int :=
  if a.e ≥ b.e then (a.m * (10 : Int) ^ (a.e - b.e).toNat, b.m)
  else (a.m, b.m * (10 : Int) ^ (b.e - a.e).toNat)

/-- Exact `<` on decimal float values. -/
def decLt (a b : Dec) : Bool := (decScale a b).1 < (decScale a b).2

/-- Exact `≤` on decimal float values. -/
def decLe (a b : Dec) : Bool := (decScale a b).1 ≤ (decScale a b).2

/-- Exact `>` on decimal float values. -/
def decGt (a b : Dec) : Bool := (decScale a b).1 > (decScale a b).2

/-- Exact `≥` on decimal float values. -/
def decGe (a b : Dec) : Bool := (decScale a b).1 ≥ (decScale a b).2

/-- Exponent part of a float literal: `e`/`E`, optional sign, digits.
Returns the exponent; the input must be consumed entirely. -/
def pyFloatExp (cs : List Char) : Option Int :=
  match cs with
  | [] => some 0
  | e :: rest =>
    if e = 'e' ∨ e = 'E' then
      let (sign, rest) : Int × List Char :=
        match rest with
        | '-' :: r => (-1, r)
        | '+' :: r => (1, r)
        | _ => (1, rest)
      if rest ≠ [] ∧ rest.all Char.isDigit then
        some (sign * (digitsToNat rest : Int))
      else none
    else none

/-- Python `float(s)` for ordinary decimal literals, modelled exactly:
optional surrounding whitespace, optional sign, `digits[.digits]` or
`.digits`, optional exponent.  (`inf`, `nan` and underscore grouping are not
modelled; the claims never evaluate them.)  `none` models the `ValueError`. -/
def pyFloat (s : String) : Option Dec :=
  let cs := (s.data.dropWhile pyIsSpace).reverse.dropWhile pyIsSpace |>.reverse
  let (sign, cs) : Int × List Char :=
    match cs with
    | '-' :: rest => (-1, rest)
    | '+' :: rest => (1, rest)
    | _ => (1, cs)
  let intPart := cs.takeWhile Char.isDigit
  let rest := cs.dropWhile Char.isDigit
  match rest with
  | '.' :: rest2 =>
    let fracPart := rest2.takeWhile Char.isDigit
    let rest3 := rest2.dropWhile Char.isDigit
    if intPart = [] ∧ fracPart = [] then none
    else
      match pyFloatExp rest3 with
      | none => none
      | some e =>
        some ⟨sign * ((digitsToNat intPart : Int) * (10 : Int) ^ fracPart.length +
          (digitsToNat fracPart : Int)), e - (fracPart.length : Int)⟩
  | _ =>
    if intPart = [] then none
    else
      match pyFloatExp rest with
      | none => none
      | some e => some ⟨sign * (digitsToNat intPart : Int), e⟩

/-- Python `int(x)` for a float value `m * 10 ^ e`: truncation toward zero. -/
def decTrunc (d : Dec) : Int :=
  if d.e ≥ 0 then d.m * (10 : Int) ^ d.e.toNat
  else d.m.tdiv ((10 : Int) ^ (-d.e).toNat)

/-- Code-point lexicographic `≤` on character lists: exactly Python's string
comparison (and the order underlying Lean's `String` order). -/
def charsLe : List Char → List Char → Bool
  | [], _ => true
  | _ :: _, [] => false
  | a :: as, b :: bs => if a < b then true else if b < a then false else charsLe as bs

/-- The string order used by Python's `sorted`. -/
def strLe (a b : String) : Prop := charsLe a.data b.data = true

instance : DecidableRel strLe := fun a b => by
  unfold strLe; infer_instance

/-- The reversed string order (for `sorted(..., reverse=True)`). -/
def strGe (a b : String) : Prop := strLe b a

instance : DecidableRel strGe := fun a b => by
  unfold strGe; infer_instance

/-- Python `sorted(values)` on strings (code-point lexicographic; Python's
sort is stable, but equal strings are identical, so any sorting algorithm
yields the same list). -/
def pySorted (values : List String) : List String :=
  List.insertionSort strLe values

/-- Python `sorted(values, reverse=True)` on strings (descending; again
stability cannot be observed on equal strings). -/
def pySortedRev (values : List String) : List String :=
  List.insertionSort strGe values

/-- Totality of the code-point order. -/
def charsLe_total : ∀ as bs : List Char, charsLe as bs = true ∨ charsLe bs as = true
  | [], _ => by left; rfl
  | _ :: _, [] => by right; rfl
  | a :: as, b :: bs => by
    simp only [charsLe]
    rcases lt_trichotomy a b with h | h | h
    · left; simp [h]
    · subst h
      simp only [lt_irrefl, if_false]
      exact charsLe_total as bs
    · right; simp [h]

/-- Transitivity of the code-point order. -/
def charsLe_trans : ∀ as bs cs : List Char,
    charsLe as bs = true → charsLe bs cs = true → charsLe as cs = true
  | [], _, _ => by intro _ _; rfl
  | _ :: _, [], _ => by intro h _; exact absurd h (by simp [charsLe])
  | _ :: _, _ :: _, [] => by intro _ h; exact absurd h (by simp [charsLe])
  | a :: as, b :: bs, c :: cs => by
    intro h₁ h₂
    simp only [charsLe] at h₁ h₂ ⊢
    rcases lt_trichotomy a b with hab | hab | hab
    · rcases lt_trichotomy b c with hbc | hbc | hbc
      · simp [lt_trans hab hbc]
      · subst hbc; simp [hab]
      · rw [if_neg (asymm hbc), if_pos hbc] at h₂; exact absurd h₂ (by simp)
    · subst hab
      rcases lt_trichotomy a c with hac | hac | hac
      · simp [hac]
      · subst hac
        rw [if_neg (lt_irrefl a), if_neg (lt_irrefl a)] at h₁ h₂
        rw [if_neg (lt_irrefl a), if_neg (lt_irrefl a)]
        exact charsLe_trans as bs cs h₁ h₂
      · rw [if_neg (asymm hac), if_pos hac] at h₂; exact absurd h₂ (by simp)
    · rw [if_neg (asymm hab), if_pos hab] at h₁; exact absurd h₁ (by simp)

/-- Antisymmetry of the code-point order. -/
def charsLe_antisymm : ∀ as bs : List Char,
    charsLe as bs = true → charsLe bs as = true → as = bs
  | [], [] => by intro _ _; rfl
  | [], _ :: _ => by intro _ h; exact absurd h (by simp [charsLe])
  | _ :: _, [] => by intro h _; exact absurd h (by simp [charsLe])
  | a :: as, b :: bs => by
    intro h₁ h₂
    simp only [charsLe] at h₁ h₂
    rcases lt_trichotomy a b with hab | hab | hab <;> simp_all [lt_irrefl, lt_asymm]
    exact charsLe_antisymm as bs h₁ h₂

instance : IsTotal String strLe :=
  ⟨fun a b => charsLe_total a.data b.data⟩

instance : IsTrans String strLe :=
  ⟨fun a b c => charsLe_trans a.data b.data c.data⟩

instance : IsAntisymm String strLe :=
  ⟨fun a b h₁ h₂ => by
    cases a; cases b
    exact congrArg String.mk (charsLe_antisymm _ _ h₁ h₂)⟩

instance : IsTotal String strGe :=
  ⟨fun a b => charsLe_total b.data a.data⟩

instance : IsTrans String strGe :=
  ⟨fun a b c h₁ h₂ => charsLe_trans c.data b.data a.data h₂ h₁⟩

instance : IsAntisymm String strGe :=
  ⟨fun _ _ h₁ h₂ => antisymm (r := strLe) h₂ h₁⟩

/-! ### Variable expansion (`MTLParser.expand_variables`) -/

/-- A character of the regex class `\w` (ASCII model). -/
def isWordChar (c : Char) : Bool := c.isAlphanum || c = '_'

/-- Models `re.compile(r"(?:%%)*(%[\w]+)?").search(value)`: because the
pattern matches the empty string, the search always succeeds at position 0, so
group 1 is non-None exactly when the string begins with zero or more `%%`
pairs followed directly by `%name`.  Returns the name. -/
def searchVar : List Char → Option String
  | '%' :: '%' :: rest => searchVar rest
  | '%' :: c :: rest =>
    if isWordChar c then some (String.mk (c :: rest.takeWhile isWordChar)) else none
  | _ => none

/-- Maximal number of leading `%%` pairs (the greedy `(%%)*`). -/
def pctPairs : List Char → Nat
  | '%' :: '%' :: rest => pctPairs rest + 1
  | _ => 0

/-- Try to match `(%%)*pat` at the head of `s`, backtracking the greedy
repetition from `k` pairs down to zero; returns the matched length and whether
group 1 (the last `%%` pair) participated. -/
def tryPairsVar (pat s : List Char) : Nat → Option (Nat × Bool)
  | 0 => if pat.isPrefixOf s then some (pat.length, false) else none
  | k + 1 =>
    if pat.isPrefixOf (s.drop (2 * (k + 1))) then some (2 * (k + 1) + pat.length, true)
    else tryPairsVar pat s k

/-- Worker for `reSubVar`, scanning left to right with fuel bounded by the
string length (each step consumes at least one character). -/
def reSubVarGo (pat repl : List Char) : Nat → List Char → List Char
  | 0, s => s
  | _ + 1, [] => []
  | fuel + 1, c :: rest =>
    match tryPairsVar pat (c :: rest) (pctPairs (c :: rest)) with
    | some (len, captured) =>
      (if captured then ['%', '%'] else []) ++ repl ++
        reSubVarGo pat repl fuel ((c :: rest).drop len)
    | none => c :: reSubVarGo pat repl fuel rest

/-- Models `re.sub("(%%)*" + var, r"\g<1>" + var_val, val)`: every leftmost
non-overlapping occurrence of `(%%)*var` is replaced by the last captured `%%`
pair (empty when the group did not participate, as in Python ≥ 3.5) followed
by the replacement. -/
def reSubVar (pat repl val : List Char) : List Char :=
  reSubVarGo pat repl val.length val

/-- One run of the `for value in values` loop inside
`MTLParser.expand_variables`: find the first value with no variable reference
(which breaks the loop), and for each value with a reference accumulate the
substitutions of that reference applied to every current value. -/
def expandPass (vars : Vars) (values : List String) (acc : List String) :
    List String → Except Err (List String)
  | [] => .ok acc
  | v :: rest =>
    match searchVar v.data with
    | none => .ok acc
    | some varName =>
      match varsGet vars varName with
      | none => .error (.syn ("Variable '" ++ varName ++ "' is not defined."))
      | some varVals =>
        let pat := '%' :: varName.data
        let adds := values.flatMap (fun val =>
          varVals.map (fun varVal => String.mk (reSubVar pat varVal.data val.data)))
        expandPass vars values (acc ++ adds) rest

/-- The `while True` fixed-point loop of `MTLParser.expand_variables`; the
fuel models Python's potential non-termination. -/
def expandLoop (vars : Vars) : Nat → List String → Except Err (List String)
  | 0, _ => .error .timeout
  | fuel + 1, values => do
    let newValues ← expandPass vars values [] values
    if newValues = values ∨ newValues = [] then pure values
    else expandLoop vars fuel newValues

/-- `MTLParser.expand_variables`. -/
def expand_variables (vars : Vars) (fuel : Nat) (value : String) :
    Except Err (List String) := do
  let values ← expandLoop vars fuel [value]
  pure (values.map (fun v => pyReplace v "%%" "%"))

/-- `MTLParser.expand_variables_to_str`: expansion must yield one value. -/
def expand_variables_to_str (vars : Vars) (fuel : Nat) (value : String)
    (name : String) : Except Err String := do
  let expanded ← expand_variables vars fuel value
  if expanded.length ≠ 1 then
    .error (.syn (name ++ " must have a single value, not " ++ toString expanded))
  else
    pure (expanded.headD "")

/-! ### Built-in field providers -/

/-- `PUNCTUATION_FIELDS` of mtlparser.py: `{field}` key, description, literal. -/
def PUNCTUATION_FIELDS : List (String × String × String) := [
  ("\x7bcomma\x7d", "A comma: ','", ","),
  ("\x7bsemicolon\x7d", "A semicolon: ';'", ";"),
  ("\x7bquestionmark\x7d", "A question mark: '?'", "?"),
  ("\x7bpipe\x7d", "A vertical pipe: '|'", "|"),
  ("\x7bpercent\x7d", "A percent sign: '%'", "%"),
  ("\x7bampersand\x7d", "an ampersand symbol: '&'", "&"),
  ("\x7bopenbrace\x7d", "An open brace: '\x7b'", "\x7b"),
  ("\x7bclosebrace\x7d", "A close brace: '\x7d'", "\x7d"),
  ("\x7bopenparens\x7d", "An open parentheses: '('", "("),
  ("\x7bcloseparens\x7d", "A close parentheses: ')'", ")"),
  ("\x7bopenbracket\x7d", "An open bracket: '['", "["),
  ("\x7bclosebracket\x7d", "A close bracket: ']'", "]"),
  ("\x7bnewline\x7d", "A newline: backslash n", "\n"),
  ("\x7blf\x7d", "A line feed, alias for newline", "\n"),
  ("\x7bcr\x7d", "A carriage return", "\r"),
  ("\x7bcrlf\x7d", "a carriage return + line feed", "\r\n")]

/-- `MTLParser.get_punctuation_values`. -/
def get_punctuation_values (field : String) (_subfield _fieldarg : Option String)
    (_default : List String) : Option (List (Option String)) :=
  match PUNCTUATION_FIELDS.find? (fun e => e.1 = "\x7b" ++ field ++ "\x7d") with
  | some e => some [some e.2.2]
  | none => none

/-- A Python value appearing in `format_str_value`: the `{format}` provider
converts strings to `int` or `float` before formatting. -/
inductive PyVal where
  | i (n : Int)
  | f (q : Dec)
  | s (t : String)

/-- The evaluator configuration: the constructor arguments of
`MTLParser.__init__` (the external field provider callable, the custom filter
hook, the two sanitize hooks, inplace expansion options and `none_str`),
together with two functions standing for Python builtins used by the code but
external to the repository (`shlex.quote` and the `str.format` engine used by
`format_str_value`, plus `str()` of a float). -/
structure MTLParser where
  get_field_values : String → Option String → Option String → List String →
    Except Err (Option (List (Option String)))
  filter_values : Option (String → Option String → List String → Except Err (List String))
  sanitize : Option (String → String)
  sanitize_value : Option (String → String)
  expand_inplace : Bool
  inplace_sep : String
  none_str : String
  shlex_quote : String → String
  py_format : PyVal → String → Except Err String
  float_repr : Dec → String

/-- Python `str(value)` for the values handled by `format_str_value`. -/
def pyStr (p : MTLParser) : PyVal → String
  | .i n => toString n
  | .f q => p.float_repr q
  | .s t => t

/-- `format_str_value` of mtlparser.py: empty format code yields `str(value)`,
otherwise the value is formatted with `("{0:" + format_str + "}").format(value)`
(the format engine itself is the `py_format` parameter). -/
def format_str_value (p : MTLParser) (value : PyVal) (format_str : String) :
    Except Err String :=
  if format_str = "" then .ok (pyStr p value)
  else p.py_format value format_str

/-- `MTLParser.get_format_values`: the `{strip}` and `{format}` fields. -/
def get_format_values (p : MTLParser) (vars : Vars) (fuel : Nat) (field : String)
    (subfield : Option String) (_fieldarg : Option String) (default : List String) :
    Except Err (Option (List (Option String))) :=
  if field = "strip" then
    .ok (some (default.map (fun v => some (pyStrip v))))
  else if field = "format" then do
    let sf := subfield.getD ""
    if sf = "" ∨ ¬ pyContains sf ":" then
      .error (.syn "\x7bformat\x7d requires subfield in form TYPE:FORMAT")
    else
      let parts := pySplitOn sf ":"
      let type_ := parts.headD ""
      let format_str := String.intercalate ":" parts.tail
      if type_ ∉ ["int", "float", "str"] then
        .error (.syn ("'" ++ type_ ++ "' is not a valid type: must be one of 'int', 'float', 'str'"))
      else do
        let default_ : List PyVal ←
          if type_ = "int" then
            default.mapM (fun v =>
              match pyFloat v with
              | none => .error (.value ("could not convert string to float: '" ++ v ++ "'"))
              | some q => .ok (PyVal.i (decTrunc q)))
          else if type_ = "float" then
            default.mapM (fun v =>
              match pyFloat v with
              | none => .error (.value ("could not convert string to float: '" ++ v ++ "'"))
              | some q => .ok (PyVal.f q))
          else
            pure (default.map PyVal.s)
        let format_str ← expand_variables_to_str vars fuel format_str "format string"
        let vals ← default_.mapM (fun v => format_str_value p v format_str)
        .ok (some (vals.map some))
  else
    .ok none

/-- `MTLParser.get_field_values`: consult the providers in order (external
callable, punctuation, format); the first non-None return wins. -/
def get_field_values (p : MTLParser) (vars : Vars) (fuel : Nat) (field : String)
    (subfield fieldarg : Option String) (default : List String) :
    Except Err (Option (List (Option String))) := do
  match ← p.get_field_values field subfield fieldarg default with
  | some values => pure (some values)
  | none =>
    match get_punctuation_values field subfield fieldarg default with
    | some values => pure (some values)
    | none => get_format_values p vars fuel field subfield fieldarg default

/-! ### Slices (`create_slice` and Python slice application) -/

/-- `create_slice` of mtlparser.py: parse `"start:end:step"` into a Python
slice triple.  `int()` conversion failures propagate as `ValueError` (uncaught
in the source). -/
def create_slice (args : String) : Except Err (Option Int × Option Int × Option Int) :=
  let intOf : String → Except Err Int := fun s =>
    match pyInt s with
    | some n => .ok n
    | none => .error (.value ("invalid literal for int: '" ++ s ++ "'"))
  match pySplitOn args ":" with
  | [a] => do
    let start ← intOf (if a = "" then "0" else a)
    pure (some start, none, none)
  | [a, b] => do
    let start ← if a = "" then pure (none : Option Int) else do pure (some (← intOf a))
    let stop ← if b = "" then pure (none : Option Int) else do pure (some (← intOf b))
    pure (start, stop, none)
  | [a, b, c] => do
    let start ← if a = "" then pure (none : Option Int) else do pure (some (← intOf a))
    let stop ← if b = "" then pure (none : Option Int) else do pure (some (← intOf b))
    let step ← if c = "" then pure (none : Option Int) else do pure (some (← intOf c))
    pure (start, stop, step)
  | _ => .error (.syn ("Invalid slice: " ++ args))

/-- CPython slice normalisation (`PySlice_AdjustIndices`): given a slice
triple and a sequence length, produce the start, stop, step and the number of
selected indices.  A zero step is a `ValueError`. -/
def pySliceIndices (sl : Option Int × Option Int × Option Int) (len : Nat) :
    Except Err (Int × Int × Nat) :=
  let step : Int := sl.2.2.getD 1
  if step = 0 then .error (.value "slice step cannot be zero")
  else
    let lower : Int := if step > 0 then 0 else -1
    let upper : Int := if step > 0 then (len : Int) else (len : Int) - 1
    let norm : Int → Int := fun i =>
      let i := if i < 0 then i + (len : Int) else i
      if i < lower then lower else if i > upper then upper else i
    let start : Int := match sl.1 with
      | none => if step > 0 then lower else upper
      | some i => norm i
    let stop : Int := match sl.2.1 with
      | none => if step > 0 then upper else lower
      | some i => norm i
    let count : Nat :=
      if step > 0 then
        (if start ≥ stop then 0 else ((stop - start - 1) / step + 1).toNat)
      else
        (if start ≤ stop then 0 else ((start - stop - 1) / (-step) + 1).toNat)
    .ok (start, step, count)

/-- Apply a Python slice to a list (`values[slice(...)]`). -/
def pySliceList {α : Type} (l : List α) (sl : Option Int × Option Int × Option Int) :
    Except Err (List α) := do
  let (start, step, count) ← pySliceIndices sl l.length
  pure (((List.range count).map (fun k => start + step * (k : Int))).filterMap
    (fun i => l.get? i.toNat))

/-- Apply a Python slice to a string (`v[slice(...)]`). -/
def pySliceStr (s : String) (sl : Option Int × Option Int × Option Int) :
    Except Err String := do
  pure (String.mk (← pySliceList s.data sl))

/-! ### The filter engine (`MTLParser.get_filter_values`) -/

/-- `MTLParser.get_filter_values`: split off the parenthesised argument (with
variable expansion), check the filters that require an argument, and apply the
built-in filter; unknown filters fall through to the custom hook. -/
def get_filter_values (p : MTLParser) (vars : Vars) (fuel : Nat) (filterStr : String)
    (values : List String) : Except Err (List String) := do
  -- re.search(r"\(.*\)", filter_): a "(" with a ")" somewhere after it
  let parts := pySplitOn filterStr "("
  let afterParen := String.intercalate "(" parts.tail
  let hasArgs := parts.length ≥ 2 ∧ pyContains afterParen ")"
  let (filter_, args) ← (do
    if hasArgs then
      let a ← expand_variables_to_str vars fuel (pyRstripParen afterParen) "Filter arguments"
      pure (parts.headD "", some a)
    else
      pure (filterStr, (none : Option String)) : Except Err (String × Option String))
  if filter_ ∈ ["split", "chop", "chomp", "append", "prepend", "remove", "slice", "sslice"]
      ∧ (args = none ∨ args = some "") then
    .error (.syn (filter_ ++ " requires arguments"))
  else if filter_ = "lower" then
    pure (values.map pyLower)
  else if filter_ = "upper" then
    pure (values.map pyUpper)
  else if filter_ = "strip" then
    pure (values.map pyStrip)
  else if filter_ = "capitalize" then
    pure (values.map pyCapitalize)
  else if filter_ = "titlecase" then
    pure (values.map pyTitle)
  else if filter_ = "braces" then
    pure (values.map (fun v => "\x7b" ++ v ++ "\x7d"))
  else if filter_ = "parens" then
    pure (values.map (fun v => "(" ++ v ++ ")"))
  else if filter_ = "brackets" then
    pure (values.map (fun v => "[" ++ v ++ "]"))
  else if filter_ = "shell_quote" then
    pure (values.map p.shlex_quote)
  else if filter_ = "split" then
    match args with
    | some delim =>
      if delim ≠ "" then pure (values.flatMap (fun v => pySplitOn v delim))
      else pure values
    | none => pure values
  else if filter_ = "chop" then
    match pyInt (args.getD "") with
    | none => .error (.syn ("Invalid value for chop: " ++ args.getD ""))
    | some chop =>
      if chop ≠ 0 then values.mapM (fun v => pySliceStr v (none, some (-chop), none))
      else pure values
  else if filter_ = "chomp" then
    match pyInt (args.getD "") with
    | none => .error (.syn ("Invalid value for chomp: " ++ args.getD ""))
    | some chomp =>
      if chomp ≠ 0 then values.mapM (fun v => pySliceStr v (some chomp, none, none))
      else pure values
  else if filter_ = "autosplit" then
    let tempValues := values.map (fun v => pyReplace v "," " ")
    let tempValues := tempValues.map (fun v => pyReplace v ";" " ")
    pure (tempValues.flatMap pyWhitespaceSplit)
  else if filter_ = "sort" then
    pure (pySorted values)
  else if filter_ = "rsort" then
    pure (pySortedRev values)
  else if filter_ = "reverse" then
    pure values.reverse
  else if filter_ = "uniq" then
    pure (values.foldl (fun acc v => if v ∈ acc then acc else acc ++ [v]) [])
  else if filter_ = "join" then
    pure [String.intercalate (args.getD "") values]
  else if filter_ = "append" then
    pure (values ++ [args.getD ""])
  else if filter_ = "prepend" then
    pure ([args.getD ""] ++ values)
  else if filter_ = "appends" then
    pure (values.map (fun v => v ++ args.getD ""))
  else if filter_ = "prepends" then
    pure (values.map (fun v => args.getD "" ++ v))
  else if filter_ = "remove" then
    pure (values.filter (fun v => v ≠ args.getD ""))
  else if filter_ = "slice" then do
    pySliceList values (← create_slice (args.getD ""))
  else if filter_ = "sslice" then do
    let sl ← create_slice (args.getD "")
    values.mapM (fun v => pySliceStr v sl)
  else
    match p.filter_values with
    | some f => f filter_ args values
    | none => .error (.syn ("Unhandled filter: " ++ filter_))

/-! ### Conditional operators -/

/-- The closure `string_test` inside `_render_template_string`: a match exists
when any value satisfies the test against any comparand; `negation` flips the
outcome.  Yields `["True"]` or `[]`. -/
def string_test (test : String → String → Bool) (conditional_value vals : List String)
    (negation : Bool) : List String :=
  let match_ := conditional_value.any (fun c => vals.any (fun v => test v c))
  if (match_ && !negation) || (negation && !match_) then ["True"] else []

/-- The lazy `any(bool(test(float(v), float(c))) for v in vals)` inside
`comparison_test`: values are scanned left to right, `float(v)` then
`float(c)` are converted per iteration, and the scan stops at the first
satisfying value — so conversions after a match never happen.  A conversion
failure is the `ValueError` that `comparison_test` turns into a syntax
error. -/
def floatTestAny (test : Dec → Dec → Bool) (c : String) : List String → Except Err Bool
  | [] => .ok false
  | v :: rest =>
    match pyFloat v with
    | none => .error (.syn
        "comparison operators may only be used with values that can be converted to numbers")
    | some fv =>
      match pyFloat c with
      | none => .error (.syn
          "comparison operators may only be used with values that can be converted to numbers")
      | some fc => if test fv fc then .ok true else floatTestAny test c rest

/-- The closure `comparison_test` inside `_render_template_string`: exactly one
comparand is required, then the lazy scan decides the match. -/
def comparison_test (test : Dec → Dec → Bool) (conditional_value vals : List String)
    (negation : Bool) : Except Err (List String) :=
  if conditional_value.length ≠ 1 then
    .error (.syn ("comparison operators may only be used with a single conditional value: "
      ++ toString conditional_value))
  else do
    let match_ ← floatTestAny test (conditional_value.headD "") vals
    pure (if (match_ && !negation) || (negation && !match_) then ["True"] else [])

/-- The operator dispatch of `_render_template_string` (lines 397-433): the
four string operators first split each comparand on `|`; `==`/`!=` compare the
sorted lists; `<`, `<=`, `>`, `>=` go through `comparison_test`.  An operator
outside the grammar's set leaves the values untouched. -/
def apply_conditional (operator : String) (negation : Bool)
    (conditional_value vals : List String) : Except Err (List String) :=
  let conditional_value :=
    if operator ∈ ["contains", "matches", "startswith", "endswith"] then
      conditional_value.flatMap (fun c => pySplitOn c "|")
    else conditional_value
  if operator = "contains" then
    .ok (string_test (fun v c => pyContains v c) conditional_value vals negation)
  else if operator = "matches" then
    .ok (string_test (fun v c => v = c) conditional_value vals negation)
  else if operator = "startswith" then
    .ok (string_test (fun v c => pyStartsWith v c) conditional_value vals negation)
  else if operator = "endswith" then
    .ok (string_test (fun v c => pyEndsWith v c) conditional_value vals negation)
  else if operator = "==" then
    let match_ := pySorted vals = pySorted conditional_value
    .ok (if (match_ && !negation) || (negation && !match_) then ["True"] else [])
  else if operator = "!=" then
    let match_ := pySorted vals ≠ pySorted conditional_value
    .ok (if (match_ && !negation) || (negation && !match_) then ["True"] else [])
  else if operator = "<" then
    comparison_test decLt conditional_value vals negation
  else if operator = "<=" then
    comparison_test decLe conditional_value vals negation
  else if operator = ">" then
    comparison_test decGt conditional_value vals negation
  else if operator = ">=" then
    comparison_test decGe conditional_value vals negation
  else
    .ok vals

/-! ### The parsed template tree

These inductives mirror the textx model objects consumed by
`_render_template_string` (and the `TemplateString` dataclass of
mtlparser.py).  `Option` wraps every attribute the grammar makes optional; for
`delim`, `combine`, `boolc` and `default` the inner `Option` distinguishes a
clause whose own value is absent (e.g. `{+field}`, where `delim.value` is
None) from an absent clause.  The literal attributes `pre` and `post` are
plain strings: the evaluator normalises a missing literal with `ts.pre or ""`,
which the empty string represents directly. -/

mutual

/-- One segment: literal `pre`, optional template expression, literal `post`. -/
inductive TemplateString where
  | mk (pre : String) (template : Option Template) (post : String)

/-- The template expression node. -/
inductive Template where
  | mk (field : String) (subfield : Option String) (fieldarg : Option String)
      (filter : Option (List String)) (delim : Option (Option String))
      (combine : Option (Option Statement)) (boolc : Option (Option Statement))
      (default : Option (Option Statement)) (conditional : Option Conditional)
      (findreplace : Option (List (Option String × Option String)))

/-- The conditional clause: operator keyword, negation flag, comparand
statements. -/
inductive Conditional where
  | mk (operator : String) (negation : Bool) (value : Option (List Statement))

/-- A parsed template statement: the sequence of template strings. -/
inductive Statement where
  | mk (template_strings : List TemplateString)

end

def TemplateString.pre : TemplateString → String
  | .mk p _ _ => p

def TemplateString.template : TemplateString → Option Template
  | .mk _ t _ => t

def TemplateString.post : TemplateString → String
  | .mk _ _ p => p

def Template.field : Template → String
  | .mk f _ _ _ _ _ _ _ _ _ => f

def Template.subfield : Template → Option String
  | .mk _ s _ _ _ _ _ _ _ _ => s

def Template.fieldarg : Template → Option String
  | .mk _ _ a _ _ _ _ _ _ _ => a

def Template.filter : Template → Option (List String)
  | .mk _ _ _ f _ _ _ _ _ _ => f

def Template.delim : Template → Option (Option String)
  | .mk _ _ _ _ d _ _ _ _ _ => d

def Template.combine : Template → Option (Option Statement)
  | .mk _ _ _ _ _ c _ _ _ _ => c

def Template.boolc : Template → Option (Option Statement)
  | .mk _ _ _ _ _ _ b _ _ _ => b

def Template.default : Template → Option (Option Statement)
  | .mk _ _ _ _ _ _ _ d _ _ => d

def Template.conditional : Template → Option Conditional
  | .mk _ _ _ _ _ _ _ _ c _ => c

def Template.findreplace : Template → Option (List (Option String × Option String))
  | .mk _ _ _ _ _ _ _ _ _ fr => fr

def Conditional.operator : Conditional → String
  | .mk o _ _ => o

def Conditional.negation : Conditional → Bool
  | .mk _ n _ => n

def Conditional.value : Conditional → Option (List Statement)
  | .mk _ _ v => v

def Statement.template_strings : Statement → List TemplateString
  | .mk l => l

/-! ### The evaluator (`MTLParser._render_statement` /
`_render_template_string`)

The mutable evaluator state (`self.variables`) is threaded explicitly; the
fuel bounds the mutual recursion depth (each call strictly decreases it, so
sufficiently large fuel reproduces the Python semantics). -/

mutual

/-- `MTLParser._render_statement`: fold the template strings over the result
accumulator (starting empty), then apply the optional sanitize hook. -/
def render_statement (p : MTLParser) (vars : Vars) (stmt : Statement)
    (field_arg : Option String) (fuel : Nat) : Except Err (List String × Vars) :=
  match fuel with
  | 0 => .error .timeout
  | fuel + 1 => do
    let (results, vars) ← render_segments p vars stmt.template_strings field_arg [] fuel
    let rendered_strings := results
    let rendered_strings :=
      match p.sanitize with
      | some f => rendered_strings.map f
      | none => rendered_strings
    pure (rendered_strings, vars)

/-- The `for ts in statement.template_strings` loop of `_render_statement`. -/
def render_segments (p : MTLParser) (vars : Vars) (segs : List TemplateString)
    (field_arg : Option String) (results : List String) (fuel : Nat) :
    Except Err (List String × Vars) :=
  match fuel with
  | 0 => .error .timeout
  | fuel + 1 =>
    match segs with
    | [] => pure (results, vars)
    | ts :: rest => do
      let (results, vars) ← render_template_string p vars ts field_arg results fuel
      render_segments p vars rest field_arg results fuel

/-- The `for cv in ts.template.conditional.value` loop: render each comparand
statement and concatenate the results. -/
def render_cond_values (p : MTLParser) (vars : Vars) (stmts : List Statement)
    (acc : List String) (fuel : Nat) : Except Err (List String × Vars) :=
  match fuel with
  | 0 => .error .timeout
  | fuel + 1 =>
    match stmts with
    | [] => pure (acc, vars)
    | cv :: rest => do
      let (rs, vars) ← render_statement p vars cv none fuel
      render_cond_values p vars rest (acc ++ rs) fuel

/-- `MTLParser._render_template_string`, translated clause by clause in source
order: delim expansion, combine/bool/default/conditional sub-renders, field
resolution (variable reference, variable assignment, or the provider chain),
sanitize_value, the UnknownField check, None stripping, inplace joining,
filters, find/replace, the conditional operator, combine, bool/default
fallback, and finally the cartesian combination with the accumulated
results. -/
def render_template_string (p : MTLParser) (vars : Vars) (ts : TemplateString)
    (field_arg0 : Option String) (results0 : List String) (fuel : Nat) :
    Except Err (List String × Vars) :=
  match fuel with
  | 0 => .error .timeout
  | fuel + 1 =>
    -- results = results or [""]
    let results := if results0 = [] then [""] else results0
    match ts.template with
    | none =>
      -- no template: append pre+post to every accumulated result
      pure (results.map (fun r => r ++ ts.pre ++ ts.post), vars)
    | some t => do
      let field := t.field
      let subfield := t.subfield
      let filters := t.filter.getD []
      -- field_arg = None, overwritten from ts.template.fieldarg
      let field_arg := t.fieldarg
      let _ := field_arg0
      -- process delim (value None means {+field}, i.e. empty string)
      let delim : Option String ←
        match t.delim with
        | none => pure none
        | some dv => do
          pure (some (← expand_variables_to_str vars fuel (dv.getD "") "delim"))
      -- process combine operator
      let (is_combine, combine_val, vars) ←
        match t.combine with
        | none => pure (false, ([] : List String), vars)
        | some none => pure (true, [""], vars)
        | some (some stmt) => do
          let (v, vars) ← render_statement p vars stmt field_arg fuel
          pure (true, v, vars)
      -- process bool
      let (is_bool, bool_val, vars) ←
        match t.boolc with
        | none => pure (false, ([] : List String), vars)
        | some none => pure (true, [""], vars)
        | some (some stmt) => do
          let (v, vars) ← render_statement p vars stmt field_arg fuel
          pure (true, v, vars)
      -- process default
      let (default, vars) ←
        match t.default with
        | none => pure (([] : List String), vars)
        | some none => pure ([""], vars)
        | some (some stmt) => render_statement p vars stmt field_arg fuel
      -- process conditional
      let (operator?, negation, conditional_value, vars) ←
        match t.conditional with
        | none => pure ((none : Option String), false, ([] : List String), vars)
        | some c =>
          match c.value with
          | none => pure (some c.operator, c.negation, [""], vars)
          | some cvs => do
            let (cv, vars) ← render_cond_values p vars cvs [] fuel
            pure (some c.operator, c.negation, cv, vars)
      -- resolve the field (variable reference / variable assignment / chain)
      let (vals?, default, vars) ←
        if pyStartsWith field "%" then
          let varName := String.mk (field.data.drop 1)
          match varsGet vars varName with
          | none => .error (.syn ("Variable '" ++ varName ++ "' is not defined."))
          | some vs => pure (some (vs.map some), default, vars)
        else if field = "var" then
          if (match subfield with | none => true | some s => s = "") || default = [] then
            .error (.syn "var must have a subfield and value in form \x7bvar:subfield,value\x7d")
          else
            -- #5, remove empty values from variable assignment
            let default := default.filter (fun d => d ≠ "")
            pure (some [], default, varsSet vars (subfield.getD "") default)
        else do
          let v ← get_field_values p vars fuel field subfield field_arg default
          pure (v, default, vars)
      -- if vals and self.sanitize_value
      let vals? : Option (List (Option String)) :=
        match vals?, p.sanitize_value with
        | some vs, some f => if vs = [] then some vs else some (vs.map (fun v => v.map f))
        | _, _ => vals?
      -- if vals is None: raise UnknownFieldError
      let vals : List (Option String) ←
        match vals? with
        | none =>
          if field ≠ "" then .error (.unknownField ("Unknown template field: " ++ field))
          else pure []
        | some vs => pure vs
      let vals := vals.filterMap id
      -- inplace expansion / delim joining
      let vals :=
        if p.expand_inplace || delim.isSome then
          if vals = [] then [] else [String.intercalate (delim.getD p.inplace_sep) vals]
        else vals
      -- filters
      let vals ← filters.foldlM (fun vals f => get_filter_values p vars fuel f vals) vals
      -- find/replace
      let vals ←
        match t.findreplace with
        | none => pure vals
        | some pairs =>
          vals.mapM (fun val =>
            pairs.foldlM (fun val pair => do
              let find ← expand_variables_to_str vars fuel (pair.1.getD "") "find/replace"
              let repl ← expand_variables_to_str vars fuel (pair.2.getD "") "find/replace"
              pure (pyReplace val find repl)) val)
      -- conditional operator
      let vals ←
        match operator? with
        | some operator => apply_conditional operator negation conditional_value vals
        | none => pure vals
      -- combine
      let vals :=
        if is_combine && combine_val ≠ [] then vals ++ combine_val.filter (fun v => v ≠ "")
        else vals
      -- bool, or the default / none_str fallback (not for variable assignment)
      let vals :=
        if is_bool then (if vals ≠ [] then bool_val else default)
        else if vals = [] && field ≠ "var" then
          (if default ≠ [] then default else [p.none_str])
        else vals
      -- wrap in pre/post and cartesian-combine with the accumulated results
      let rendered :=
        if vals = [] then [ts.pre ++ ts.post]
        else vals.map (fun val => ts.pre ++ val ++ ts.post)
      pure (rendered.flatMap (fun ren => results.map (fun res => res ++ ren)), vars)

end

/-- `MTLParser.render`: reset `self.variables` to the empty dict (whatever the
previous render left there), parse, return `[]` for the empty model, else
render the statement.  Parsing itself is the external textx grammar, so the
parsed model is the argument here. -/
def render (p : MTLParser) (variables0 : Vars) (model : Option Statement)
    (fuel : Nat) : Except Err (List String) :=
  -- self.variables = {} discards variables0
  let _ := variables0
  match model with
  | none => .ok []
  | some stmt => (render_statement p [] stmt none fuel).map (fun r => r.1)

/-! ### JSON emitter helper (`get_dict_for_templates`, mdinfo.py) -/

/-- A JSON value as produced for one template key. -/
inductive JSONValue where
  | null
  | str (s : String)
  | arr (xs : List JSONValue)
deriving Repr

/-- The per-template value computation of `get_dict_for_templates`
(mdinfo.py lines 146-151): replace the `NONE_STR_SENTINEL` (a process-unique
string built at import time, here the `sentinel` parameter) with the
user-supplied undefined string (`undefined or ""`), turn empty strings into
`None`, and emit a scalar when exactly one string was rendered, else the
list. -/
def get_dict_value (sentinel : String) (undefined : Option String)
    (rendered : List String) : JSONValue :=
  let rendered := rendered.map (fun t => pyReplace t sentinel (undefined.getD ""))
  let rendered2 := rendered.map (fun t =>
    if t = "" then JSONValue.null else JSONValue.str t)
  if rendered.length = 1 then rendered2.headD JSONValue.null
  else JSONValue.arr rendered2

/-! ### The parse of expression-free templates -/

/-- Modelled from the spec: the textx grammar (mtlparser.tx, shipped as a
data file and therefore not part of src/) maps the empty template string to a
falsy model (the `if not model: return []` branch of `render`) and a template
containing no brace-delimited expression to a single expressionless segment
carrying the input text as its literal. -/
def parse_literal_template (s : String) : Option Statement :=
  if s = "" then none
  else some (Statement.mk [TemplateString.mk s none ""])

/-! ### Concrete fixtures used by the theorems -/

instance {ε α : Type} [DecidableEq ε] [DecidableEq α] : DecidableEq (Except ε α) :=
  fun x y =>
  match x, y with
  | .ok a, .ok b =>
    if h : a = b then .isTrue (congrArg Except.ok h)
    else .isFalse (fun he => h (Except.ok.inj he))
  | .error a, .error b =>
    if h : a = b then .isTrue (congrArg Except.error h)
    else .isFalse (fun he => h (Except.error.inj he))
  | .ok _, .error _ => .isFalse (fun he => Except.noConfusion he)
  | .error _, .ok _ => .isFalse (fun he => Except.noConfusion he)

/-- An external field provider serving a fixed table: claims exactly the
fields listed (per the hookspec contract, None means the field is not
handled). -/
def tableProvider (m : List (String × List String)) :
    String → Option String → Option String → List String →
    Except Err (Option (List (Option String))) :=
  fun field _ _ _ => .ok ((m.find? (fun e => e.1 = field)).map (fun e => e.2.map some))

/-- An `MTLParser` with the given external provider, no custom filter hook, no
sanitize hooks, inplace expansion off, and the default separators (matching
`MTLParser.__init__` defaults); the two Python-builtin stand-ins are
inert stubs, never reached by the theorems below. -/
def mkParser (g : String → Option String → Option String → List String →
    Except Err (Option (List (Option String)))) : MTLParser where
  get_field_values := g
  filter_values := none
  sanitize := none
  sanitize_value := none
  expand_inplace := false
  inplace_sep := ","
  none_str := "_"
  shlex_quote := fun s => s
  py_format := fun _ _ => .ok ""
  float_repr := fun _ => ""

/-- Parser over a fixed field table. -/
def tableParser (m : List (String × List String)) : MTLParser :=
  mkParser (tableProvider m)

/-- A segment holding the bare expression `{f}`. -/
def fieldSeg (f : String) : TemplateString :=
  .mk "" (some (.mk f none none none none none none none none none)) ""

/-- A pure-literal segment. -/
def litSeg (s : String) : TemplateString := .mk s none ""

/-- A statement made of one literal segment. -/
def litStmt (s : String) : Statement := .mk [litSeg s]

/-- A segment holding `{f,d}` with a literal default. -/
def fieldSegD (f d : String) : TemplateString :=
  .mk "" (some (.mk f none none none none none none (some (some (litStmt d))) none none)) ""

/-- A segment holding `{var:name,value}`. -/
def varAssignSeg (name value : String) : TemplateString :=
  .mk "" (some (.mk "var" (some name) none none none none none
    (some (some (litStmt value))) none none)) ""

/-- A segment holding `{%name}`. -/
def varRefSeg (name : String) : TemplateString :=
  .mk "" (some (.mk ("%" ++ name) none none none none none none none none none)) ""

/-- A segment holding `{f op value}` (possibly negated) with one literal
comparand. -/
def condSeg (f op : String) (neg : Bool) (value : String) : TemplateString :=
  .mk "" (some (.mk f none none none none none none none
    (some (.mk op neg (some [litStmt value]))) none)) ""

/-- Does the computation raise the evaluator's SyntaxError? -/
def isSyntaxErr {α : Type} : Except Err α → Prop
  | .error (.syn _) => True
  | _ => False

/-- Are all strings of the list ASCII?  (Hypothesis of the filter-composition
law: the embedding models Python's `str.upper`/`str.lower` for basic latin
letters only.) -/
def allASCII (values : List String) : Bool :=
  values.all (fun s => s.data.all (fun c => c.toNat < 128))

/-- The eager counterpart of the lazy conversion scan of `comparison_test`:
does any value convert and satisfy the relation against the comparand? -/
def convMatch (test : Dec → Dec → Bool) (c : String) (vals : List String) : Bool :=
  vals.any (fun v =>
    match pyFloat v, pyFloat c with
    | some a, some b => test a b
    | _, _ => false)

/-- An external provider that claims the field `comma` with the value `X`
(exercising the provider-order correction of the punctuation claim). -/
def overridingProvider : String → Option String → Option String → List String →
    Except Err (Option (List (Option String))) :=
  fun field _ _ _ => .ok (if field = "comma" then some [some "X"] else none)

example : render_segments (tableParser []) [] [] none [] 1 = .ok ([], []) := rfl

example : render_statement (tableParser []) [] (.mk []) none 2 = .ok ([], []) := rfl

example : render_template_string (tableParser []) [] (litSeg "hi") none [] 1 =
    .ok (["hi"], []) := by decide

example :
    (render_statement (tableParser [("f1", ["a", "b"]), ("f2", ["x", "y"])]) []
      (.mk [fieldSeg "f1", fieldSeg "f2"]) none 9).map (fun r => r.1) =
    .ok ["ax", "bx", "ay", "by"] := by decide

example :
    (render_statement (tableParser []) [] (.mk [fieldSeg "nosuch"]) none 9).map
      (fun r => r.1) =
    .error (.unknownField "Unknown template field: nosuch") := by decide

example :
    (render_statement (tableParser []) [] (.mk [fieldSegD "nosuch" "fallback"]) none 9).map
      (fun r => r.1) =
    .error (.unknownField "Unknown template field: nosuch") := by decide

example :
    (render_statement (tableParser []) [] (.mk [varAssignSeg "x" "hello", varRefSeg "x"])
      none 9).map (fun r => r.1) = .ok ["hello"] := by decide

example :
    (render_statement (tableParser [("size", ["2771656"])]) []
      (.mk [fieldSeg "comma"]) none 9).map (fun r => r.1) = .ok [","] := by decide

/-! ## C1: cartesian combination order -/

/-- C1 counterexample: for two segments whose fields resolve to `[a, b]` and
`[x, y]`, the renderer emits `[ax, bx, ay, by]` — because the accumulation
loop iterates the freshly rendered alternatives in its outer `for` and the
accumulated prefixes in its inner `for` — and not `[ax, ay, bx, by]` as the
claim states. -/
theorem C1_counterexample :
    (render_statement (tableParser [("f1", ["a", "b"]), ("f2", ["x", "y"])]) []
      (.mk [fieldSeg "f1", fieldSeg "f2"]) none 9).map (fun r => r.1) =
      .ok ["ax", "bx", "ay", "by"] ∧
    (["ax", "bx", "ay", "by"] : List String) ≠ ["ax", "ay", "bx", "by"] :=
  ⟨by decide, by decide⟩

/-- C1 (amended): rendering a two-segment template whose segments resolve to
`[a, b]` and `[x, y]` yields every cartesian concatenation exactly once, in
the order `[ax, bx, ay, by]`: the later segment's alternatives vary slowest. -/
theorem C1_cartesian (n : Nat) (a b x y : String) :
    (render_statement (tableParser [("f1", [a, b]), ("f2", [x, y])]) []
      (.mk [fieldSeg "f1", fieldSeg "f2"]) none (n + 5)).map (fun r => r.1) =
    .ok [a ++ x, b ++ x, a ++ y, b ++ y] := by
  simp [render_statement, render_segments, render_template_string, tableParser, mkParser,
    tableProvider, fieldSeg, get_field_values, TemplateString.pre, TemplateString.post,
    TemplateString.template, Template.field, Template.subfield, Template.filter,
    Template.fieldarg, Template.delim, Template.combine, Template.boolc, Template.default,
    Template.conditional, Template.findreplace, Statement.template_strings, pyStartsWith,
    Except.map, Except.pure, bind, Except.bind, pure]

/-! ## C2: unknown fields and defaults -/

/-- C2 counterexample: with no provider claiming `nosuch`, `{nosuch,fallback}`
does not return `["fallback"]` — `_render_template_string` raises UnknownField
(mtlparser.py line 331) before the default machinery (line 440-442) is
reached; a default applies only when a provider claims the field with no
values. -/
theorem C2_counterexample :
    (render_statement (tableParser []) [] (.mk [fieldSegD "nosuch" "fallback"]) none 9).map
      (fun r => r.1) = .error (.unknownField "Unknown template field: nosuch") ∧
    (Except.error (Err.unknownField "Unknown template field: nosuch") :
      Except Err (List String)) ≠ .ok ["fallback"] :=
  ⟨by decide, by decide⟩

/-- C2 (amended): for every field that no provider claims (the external
provider returns None, the field is not a punctuation name, not `strip` or
`format`, not a variable reference and not `var`), rendering `{field}` raises
UnknownField, and rendering `{field,default}` raises UnknownField as well. -/
theorem C2_unknown_field (n : Nat)
    (g : String → Option String → Option String → List String →
      Except Err (Option (List (Option String))))
    (f d : String)
    (hg : ∀ sf fa dflt, g f sf fa dflt = .ok none)
    (hpunct : ∀ sf fa dflt, get_punctuation_values f sf fa dflt = none)
    (hstrip : f ≠ "strip") (hformat : f ≠ "format")
    (hpct : pyStartsWith f "%" = false) (hvar : f ≠ "var") (hne : f ≠ "") :
    (render_statement (mkParser g) [] (.mk [fieldSeg f]) none (n + 6)).map (fun r => r.1) =
      .error (.unknownField ("Unknown template field: " ++ f)) ∧
    (render_statement (mkParser g) [] (.mk [fieldSegD f d]) none (n + 6)).map (fun r => r.1) =
      .error (.unknownField ("Unknown template field: " ++ f)) := by
  constructor <;>
  simp [render_statement, render_segments, render_template_string, fieldSeg, fieldSegD,
    litStmt, litSeg, mkParser, get_field_values, get_format_values, hg, hpunct, hstrip,
    hformat, hpct, hvar, hne, TemplateString.pre, TemplateString.post, TemplateString.template,
    Template.field, Template.subfield, Template.filter, Template.fieldarg, Template.delim,
    Template.combine, Template.boolc, Template.default, Template.conditional,
    Template.findreplace, Statement.template_strings, Except.map, Except.pure, bind,
    Except.bind, pure]

/-- C2 witness: the concrete instance `{nosuch}` / `{nosuch,fallback}` with no
registered provider. -/
theorem C2_unknown_field_witness :
    (render_statement (mkParser (tableProvider [])) [] (.mk [fieldSeg "nosuch"]) none 6).map
      (fun r => r.1) = .error (.unknownField ("Unknown template field: " ++ "nosuch")) ∧
    (render_statement (mkParser (tableProvider [])) []
      (.mk [fieldSegD "nosuch" "fallback"]) none 6).map (fun r => r.1) =
      .error (.unknownField ("Unknown template field: " ++ "nosuch")) :=
  C2_unknown_field 0 (tableProvider []) "nosuch" "fallback" (fun _ _ _ => rfl)
    (fun _ _ _ => rfl) (by decide) (by decide) (by decide) (by decide) (by decide)

/-! ## C3: punctuation fields and the provider chain -/

/-- C3 counterexample: the resolver chain consults external providers before
the punctuation provider and the first non-None wins, so an external provider
claiming `comma` overrides the documented literal — `{comma}` renders to `X`,
not `,`, falsifying "regardless of which external field providers are
registered". -/
theorem C3_counterexample :
    (render_statement (mkParser overridingProvider) [] (.mk [fieldSeg "comma"]) none 9).map
      (fun r => r.1) = .ok ["X"] ∧
    (Except.ok ["X"] : Except Err (List String)) ≠ .ok [","] :=
  ⟨by decide, by decide⟩

/-- C3 (amended): every punctuation field renders to its documented literal
(the single value stored for it in `PUNCTUATION_FIELDS`) through the resolver
chain external → punctuation → format with first non-None winning, provided
the external provider does not claim the field. -/
theorem C3_punctuation (n : Nat)
    (g : String → Option String → Option String → List String →
      Except Err (Option (List (Option String))))
    (name lit : String)
    (hpunct : get_punctuation_values name none none [] = some [some lit])
    (hg : g name none none [] = .ok none)
    (hpct : pyStartsWith name "%" = false) (hvar : name ≠ "var") :
    (render_statement (mkParser g) [] (.mk [fieldSeg name]) none (n + 5)).map (fun r => r.1) =
      .ok [lit] := by
  simp [render_statement, render_segments, render_template_string, fieldSeg, mkParser,
    get_field_values, hg, hpunct, hpct, hvar, TemplateString.pre, TemplateString.post,
    TemplateString.template, Template.field, Template.subfield, Template.filter,
    Template.fieldarg, Template.delim, Template.combine, Template.boolc, Template.default,
    Template.conditional, Template.findreplace, Statement.template_strings, Except.map,
    Except.pure, bind, Except.bind, pure]

/-- C3 witness: `{comma}` renders to `,` when the external provider does not
claim `comma`. -/
theorem C3_punctuation_witness :
    (render_statement (mkParser (tableProvider [])) [] (.mk [fieldSeg "comma"]) none 5).map
      (fun r => r.1) = .ok [","] :=
  C3_punctuation 0 (tableProvider []) "comma" "," rfl rfl (by decide) (by decide)

/-! ## C5: variables -/

/-- C5: `{var:x,hello}{%x}` renders to `["hello"]`; `{%x}` with `x` unassigned
in the current render raises the evaluator's SyntaxError; and `render` resets
the variable store, so bindings from a previous render call are never
visible. -/
theorem C5_variable_roundtrip :
    (∀ n : Nat, (render_statement (tableParser []) []
        (.mk [varAssignSeg "x" "hello", varRefSeg "x"]) none (n + 6)).map (fun r => r.1) =
      .ok ["hello"]) ∧
    render (tableParser []) [] (some (.mk [varRefSeg "x"])) 9 =
      .error (.syn "Variable 'x' is not defined.") ∧
    (∀ (p : MTLParser) (v v' : Vars) (m : Option Statement) (fuel : Nat),
      render p v m fuel = render p v' m fuel) := by
  refine ⟨fun n => ?_, by decide, fun p v v' m fuel => rfl⟩
  simp [render_statement, render_segments, render_template_string, varAssignSeg, varRefSeg,
    litStmt, litSeg, tableParser, mkParser, tableProvider, varsSet, varsGet,
    TemplateString.pre, TemplateString.post, TemplateString.template, Template.field,
    Template.subfield, Template.filter, Template.fieldarg, Template.delim, Template.combine,
    Template.boolc, Template.default, Template.conditional, Template.findreplace,
    Statement.template_strings, pyStartsWith, Except.map, Except.pure, bind, Except.bind,
    pure]

/-! ## C9: literal-only and empty templates -/

/-- C9: rendering the empty template yields `[]` (the parser produces a falsy
model and `render` short-circuits), and rendering a template with no
brace-delimited expression yields exactly the input string (the single
expressionless segment re-emits its literal around the `[""]` accumulator),
when no sanitize hook is configured. -/
theorem C9_literal_render (p : MTLParser) (v : Vars) (n : Nat) (s : String)
    (hsan : p.sanitize = none) (hs : s ≠ "") :
    render p v (parse_literal_template "") (n + 3) = .ok [] ∧
    render p v (parse_literal_template s) (n + 3) = .ok [s] := by
  constructor
  · simp [parse_literal_template, render]
  · simp [parse_literal_template, hs, render, render_statement, render_segments,
      render_template_string, hsan, TemplateString.pre, TemplateString.post,
      TemplateString.template, Statement.template_strings, Except.map, Except.pure, bind,
      Except.bind, pure]

/-- C9 witness: the empty template and a concrete literal template. -/
theorem C9_literal_render_witness :
    render (tableParser []) [] (parse_literal_template "") 3 = .ok [] ∧
    render (tableParser []) [] (parse_literal_template "hello world") 3 =
      .ok ["hello world"] :=
  C9_literal_render (tableParser []) [] 0 "hello world" rfl (by decide)

/-! ## C10: JSON scalar versus array emission -/

/-- C10: after sentinel replacement, a rendering of exactly one string is
emitted as a scalar (`null` when the string is empty, else the string), and a
rendering of zero or two-or-more strings is emitted as a JSON array with empty
strings replaced by `null`. -/
theorem C10_json_value (sentinel : String) (undefined : Option String)
    (rendered : List String) :
    (∀ s, rendered.map (fun t => pyReplace t sentinel (undefined.getD "")) = [s] →
      get_dict_value sentinel undefined rendered =
        (if s = "" then JSONValue.null else JSONValue.str s)) ∧
    ((rendered.map (fun t => pyReplace t sentinel (undefined.getD ""))).length ≠ 1 →
      get_dict_value sentinel undefined rendered =
        JSONValue.arr ((rendered.map (fun t => pyReplace t sentinel (undefined.getD ""))).map
          (fun t => if t = "" then JSONValue.null else JSONValue.str t))) := by
  constructor
  · intro s h
    simp [get_dict_value, h]
  · intro h
    simp only [get_dict_value]
    rw [if_neg h]

/-- C10 witness: one non-empty rendered string is emitted as a scalar. -/
theorem C10_json_value_witness : get_dict_value "S" none ["a"] = JSONValue.str "a" := by
  have h := (C10_json_value "S" none ["a"]).1 "a" rfl
  simpa using h

/-! ## C7: filter composition -/

/-- Packing a valid codepoint and unpacking it is the identity. -/
theorem toNat_ofNat_valid {n : Nat} (h : n.isValidChar) : (Char.ofNat n).toNat = n := by
  rw [Char.ofNat, dif_pos h]
  rfl

/-- Lowercasing after uppercasing equals lowercasing (on every `Char`, since
Lean's case maps only touch basic latin letters, exactly the ASCII scope of
the claim). -/
theorem toLower_toUpper_eq (c : Char) : c.toUpper.toLower = c.toLower := by
  simp only [Char.toUpper, Char.toLower]
  by_cases hU : c.toNat ≥ 97 ∧ c.toNat ≤ 122
  · rw [if_pos hU]
    have hv : (c.toNat - 32).isValidChar := Or.inl (by omega)
    have ht : (Char.ofNat (c.toNat - 32)).toNat = c.toNat - 32 := toNat_ofNat_valid hv
    rw [if_pos (by rw [ht]; omega), if_neg (by omega), ht]
    have h32 : c.toNat - 32 + 32 = c.toNat := by omega
    rw [h32, Char.ofNat_toNat]
  · rw [if_neg hU]

/-- `upper` then `lower` equals `lower` on a single string. -/
theorem pyLower_pyUpper (s : String) : pyLower (pyUpper s) = pyLower s := by
  apply congrArg String.mk
  simp only [pyUpper]
  rw [List.map_map]
  exact List.map_congr_left (fun c _ => toLower_toUpper_eq c)

/-- Reversing the ascending sort gives the descending sort (both are
permutations of the input sorted for the reversed total order, which is
antisymmetric on strings). -/
theorem pySorted_reverse (values : List String) :
    (pySorted values).reverse = pySortedRev values := by
  apply List.eq_of_perm_of_sorted (r := strGe)
  · exact ((pySorted values).reverse_perm.trans
      (List.perm_insertionSort _ _)).trans (List.perm_insertionSort strGe values).symm
  · exact List.pairwise_reverse.mpr (List.sorted_insertionSort strLe values)
  · exact List.sorted_insertionSort strGe values

/-- C7: on ASCII values, the filter `upper` followed by `lower` agrees with
`lower` alone, and `sort` followed by `reverse` agrees with `rsort`. -/
theorem C7_filter_composition (p : MTLParser) (vars : Vars) (fuel : Nat)
    (values : List String) (h : allASCII values = true) :
    ((get_filter_values p vars fuel "upper" values).bind
        (fun vs => get_filter_values p vars fuel "lower" vs) =
      get_filter_values p vars fuel "lower" values) ∧
    ((get_filter_values p vars fuel "sort" values).bind
        (fun vs => get_filter_values p vars fuel "reverse" vs) =
      get_filter_values p vars fuel "rsort" values) := by
  constructor
  · simp [get_filter_values, pySplitOn, splitOnGo, pyContains, listContainsSub,
      bind, Except.bind, pure, Except.pure, List.map_map]
    exact fun s _ => pyLower_pyUpper s
  · simp [get_filter_values, pySplitOn, splitOnGo, pyContains, listContainsSub,
      bind, Except.bind, pure, Except.pure]
    exact pySorted_reverse values

/-- C7 witness: a concrete ASCII value list. -/
theorem C7_filter_composition_witness :
    ((get_filter_values (tableParser []) [] 0 "upper" ["b", "A"]).bind
        (fun vs => get_filter_values (tableParser []) [] 0 "lower" vs) =
      get_filter_values (tableParser []) [] 0 "lower" ["b", "A"]) ∧
    ((get_filter_values (tableParser []) [] 0 "sort" ["b", "A"]).bind
        (fun vs => get_filter_values (tableParser []) [] 0 "reverse" vs) =
      get_filter_values (tableParser []) [] 0 "rsort" ["b", "A"]) :=
  C7_filter_composition (tableParser []) [] 0 ["b", "A"] (by decide)

/-! ## C4: conditional duality -/

/-- The `string_test` closure is complementary in the negation flag. -/
theorem string_test_dual (t : String → String → Bool) (cv vals : List String) :
    (string_test t cv vals false = ["True"] ∧ string_test t cv vals true = []) ∨
    (string_test t cv vals false = [] ∧ string_test t cv vals true = ["True"]) := by
  unfold string_test
  cases h : cv.any fun c => vals.any fun v => t v c <;> simp

/-- The `comparison_test` closure is complementary in the negation flag
whenever it returns at all (the error cases do not depend on the flag). -/
theorem comparison_test_dual (t : Dec → Dec → Bool) (cv vals r₁ r₂ : List String)
    (h₁ : comparison_test t cv vals false = .ok r₁)
    (h₂ : comparison_test t cv vals true = .ok r₂) :
    (r₁ = ["True"] ∧ r₂ = []) ∨ (r₁ = [] ∧ r₂ = ["True"]) := by
  unfold comparison_test at h₁ h₂
  by_cases hl : cv.length ≠ 1
  · rw [if_pos hl] at h₁
    exact absurd h₁ (by simp)
  · rw [if_neg hl] at h₁ h₂
    cases hm : floatTestAny t (cv.headD "") vals with
    | error e =>
      rw [hm] at h₁
      exact absurd h₁ (by simp [bind, Except.bind])
    | ok m =>
      rw [hm] at h₁ h₂
      simp [bind, Except.bind, pure, Except.pure] at h₁ h₂
      cases m <;> simp_all

/-- C4 counterexample: with the field resolving to `["1"]`, the operator `<`
and the comparand `abc`, both `{f1 < abc}` and `{f1 < not abc}` raise the
evaluator's SyntaxError (float conversion of the comparand fails), so neither
expression evaluates its conditional to `["True"]` or `[]`. -/
theorem C4_counterexample :
    (render_statement (tableParser [("f1", ["1"])]) []
      (.mk [condSeg "f1" "<" false "abc"]) none 9).map (fun r => r.1) =
      .error (.syn
        "comparison operators may only be used with values that can be converted to numbers") ∧
    (render_statement (tableParser [("f1", ["1"])]) []
      (.mk [condSeg "f1" "<" true "abc"]) none 9).map (fun r => r.1) =
      .error (.syn
        "comparison operators may only be used with values that can be converted to numbers") :=
  ⟨by decide, by decide⟩

/-- C4 (amended): for every grammar operator, whenever the conditional
evaluates without raising under both negation flags (which the comparison
operators need not: conversion failures raise SyntaxError independently of the
flag), exactly one of `{field O x}` / `{field O not x}` yields `["True"]` and
the other `[]`. -/
theorem C4_conditional_duality (op : String) (cv vals r₁ r₂ : List String)
    (hop : op ∈ ["contains", "matches", "startswith", "endswith", "==", "!=",
      "<", "<=", ">", ">="])
    (hvals : vals ≠ [])
    (h₁ : apply_conditional op false cv vals = .ok r₁)
    (h₂ : apply_conditional op true cv vals = .ok r₂) :
    (r₁ = ["True"] ∧ r₂ = []) ∨ (r₁ = [] ∧ r₂ = ["True"]) := by
  fin_cases hop
  · simp [apply_conditional] at h₁ h₂
    rcases string_test_dual (fun v c => pyContains v c)
        (cv.flatMap fun c => pySplitOn c "|") vals with ⟨ha, hb⟩ | ⟨ha, hb⟩
    · exact .inl ⟨h₁.symm.trans ha, h₂.symm.trans hb⟩
    · exact .inr ⟨h₁.symm.trans ha, h₂.symm.trans hb⟩
  · simp [apply_conditional] at h₁ h₂
    rcases string_test_dual (fun v c => v = c)
        (cv.flatMap fun c => pySplitOn c "|") vals with ⟨ha, hb⟩ | ⟨ha, hb⟩
    · exact .inl ⟨h₁.symm.trans ha, h₂.symm.trans hb⟩
    · exact .inr ⟨h₁.symm.trans ha, h₂.symm.trans hb⟩
  · simp [apply_conditional] at h₁ h₂
    rcases string_test_dual (fun v c => pyStartsWith v c)
        (cv.flatMap fun c => pySplitOn c "|") vals with ⟨ha, hb⟩ | ⟨ha, hb⟩
    · exact .inl ⟨h₁.symm.trans ha, h₂.symm.trans hb⟩
    · exact .inr ⟨h₁.symm.trans ha, h₂.symm.trans hb⟩
  · simp [apply_conditional] at h₁ h₂
    rcases string_test_dual (fun v c => pyEndsWith v c)
        (cv.flatMap fun c => pySplitOn c "|") vals with ⟨ha, hb⟩ | ⟨ha, hb⟩
    · exact .inl ⟨h₁.symm.trans ha, h₂.symm.trans hb⟩
    · exact .inr ⟨h₁.symm.trans ha, h₂.symm.trans hb⟩
  · simp only [apply_conditional] at h₁ h₂
    simp at h₁ h₂
    cases hm : decide (pySorted vals = pySorted cv) <;> simp_all
  · simp only [apply_conditional] at h₁ h₂
    simp at h₁ h₂
    cases hm : decide (pySorted vals = pySorted cv) <;> simp_all
  · simp [apply_conditional] at h₁ h₂
    exact comparison_test_dual decLt cv vals r₁ r₂ h₁ h₂
  · simp [apply_conditional] at h₁ h₂
    exact comparison_test_dual decLe cv vals r₁ r₂ h₁ h₂
  · simp [apply_conditional] at h₁ h₂
    exact comparison_test_dual decGt cv vals r₁ r₂ h₁ h₂
  · simp [apply_conditional] at h₁ h₂
    exact comparison_test_dual decGe cv vals r₁ r₂ h₁ h₂

/-- C4 witness: `contains` on a concrete field value, with the duality
instance derived from the theorem. -/
theorem C4_conditional_duality_witness :
    apply_conditional "contains" false ["a"] ["abc"] = .ok ["True"] ∧
    apply_conditional "contains" true ["a"] ["abc"] = .ok [] ∧
    (((["True"] : List String) = ["True"] ∧ ([] : List String) = []) ∨
      ((["True"] : List String) = [] ∧ ([] : List String) = ["True"])) :=
  ⟨by decide, by decide,
    C4_conditional_duality "contains" ["a"] ["abc"] ["True"] [] (by decide) (by decide)
      (by decide) (by decide)⟩

/-! ## C6: numeric comparison operators -/

/-- When the comparand and every value convert, the lazy scan agrees with the
eager any-match. -/
theorem convMatch_cons (t : Dec → Dec → Bool) (c v : String) (rest : List String) :
    convMatch t c (v :: rest) =
      ((match pyFloat v, pyFloat c with
        | some a, some b => t a b
        | _, _ => false) || convMatch t c rest) := by
  simp [convMatch]

theorem floatTestAny_total (t : Dec → Dec → Bool) (c : String) (vals : List String)
    (hc : (pyFloat c).isSome) (hv : ∀ v ∈ vals, (pyFloat v).isSome) :
    floatTestAny t c vals = .ok (convMatch t c vals) := by
  induction vals with
  | nil => simp [floatTestAny, convMatch]
  | cons v rest ih =>
    obtain ⟨a, ha⟩ := Option.isSome_iff_exists.mp (hv v (by simp))
    obtain ⟨b, hb⟩ := Option.isSome_iff_exists.mp hc
    have ih' := ih (fun u hu => hv u (by simp [hu]))
    rw [convMatch_cons, ha, hb]
    simp only [floatTestAny, ha, hb]
    cases htest : t a b
    · simp only [htest, if_neg (by simp : ¬ (false = true)), Bool.false_or]
      exact ih'
    · simp [htest]

/-- If the lazy scan returns despite a value that does not convert, an earlier
value must have matched. -/
theorem floatTestAny_bypass (t : Dec → Dec → Bool) (c : String) (vals : List String)
    (m : Bool) (h : floatTestAny t c vals = .ok m)
    (hbad : ∃ v ∈ vals, pyFloat v = none) : m = true := by
  induction vals with
  | nil => simp at hbad
  | cons v rest ih =>
    obtain ⟨u, hu, hnone⟩ := hbad
    cases hv : pyFloat v with
    | none => simp [floatTestAny, hv] at h
    | some a =>
      cases hc : pyFloat c with
      | none => simp [floatTestAny, hv, hc] at h
      | some b =>
        simp only [floatTestAny, hv, hc] at h
        by_cases ht : t a b = true
        · rw [if_pos ht] at h
          exact (Except.ok.inj h).symm
        · rw [if_neg ht] at h
          rcases List.mem_cons.mp hu with rfl | hu'
          · exact absurd hnone (by simp [hv])
          · exact ih h ⟨u, hu', hnone⟩

/-- C6 counterexample: with the field resolving to `["1", "abc"]` and the
conditional `> 0`, the value `abc` fails float conversion, yet no SyntaxError
is raised — the conversion inside `any(...)` is lazy and stops at the first
matching value, so `{f1 > 0}` renders `["True"]`. -/
theorem C6_counterexample :
    pyFloat "abc" = none ∧
    (render_statement (tableParser [("f1", ["1", "abc"])]) []
      (.mk [condSeg "f1" ">" false "0"]) none 9).map (fun r => r.1) = .ok ["True"] :=
  ⟨by decide, by decide⟩

/-- C6 (amended): the four comparison operators route to `comparison_test`
with the matching exact relation; a conditional with zero or more than one
comparand raises SyntaxError; when the comparand and every value convert, the
conditional matches exactly when some value satisfies the relation (negation
flipping the outcome); and values are scanned lazily left to right, so a
conversion failure raises SyntaxError only when no earlier value matched —
when the scan still returns, the outcome is a match. -/
theorem C6_comparison_semantics :
    (∀ (neg : Bool) (cv vals : List String),
      apply_conditional "<" neg cv vals = comparison_test decLt cv vals neg ∧
      apply_conditional "<=" neg cv vals = comparison_test decLe cv vals neg ∧
      apply_conditional ">" neg cv vals = comparison_test decGt cv vals neg ∧
      apply_conditional ">=" neg cv vals = comparison_test decGe cv vals neg) ∧
    (∀ (t : Dec → Dec → Bool) (cv vals : List String) (neg : Bool),
      cv.length ≠ 1 → isSyntaxErr (comparison_test t cv vals neg)) ∧
    (∀ (t : Dec → Dec → Bool) (c : String) (vals : List String) (neg : Bool),
      (pyFloat c).isSome → (∀ v ∈ vals, (pyFloat v).isSome) →
      comparison_test t [c] vals neg =
        .ok (if convMatch t c vals ≠ neg then ["True"] else [])) ∧
    (∀ (t : Dec → Dec → Bool) (c : String) (vals r : List String) (neg : Bool),
      comparison_test t [c] vals neg = .ok r → (∃ v ∈ vals, pyFloat v = none) →
      r = if neg then [] else ["True"]) := by
  refine ⟨fun neg cv vals => ⟨by simp [apply_conditional], by simp [apply_conditional],
    by simp [apply_conditional], by simp [apply_conditional]⟩, ?_, ?_, ?_⟩
  · intro t cv vals neg hl
    simp [comparison_test, hl, isSyntaxErr]
  · intro t c vals neg hc hv
    rw [comparison_test, if_neg (by simp)]
    rw [show ([c].headD "") = c from rfl, floatTestAny_total t c vals hc hv]
    cases hm : convMatch t c vals <;> cases neg <;>
      simp [bind, Except.bind, pure, Except.pure]
  · intro t c vals r neg h hbad
    rw [comparison_test, if_neg (by simp)] at h
    cases hm : floatTestAny t ([c].headD "") vals with
    | error e => rw [hm] at h; exact absurd h (by simp [bind, Except.bind])
    | ok m =>
      rw [hm] at h
      have hm' : m = true := floatTestAny_bypass t c vals m hm ⟨hbad.choose, hbad.choose_spec⟩
      subst hm'
      simp [bind, Except.bind, pure, Except.pure] at h
      cases neg <;> simp_all

/-- C6 witness: a two-comparand conditional raises, and `1 > 0` matches. -/
theorem C6_comparison_semantics_witness :
    isSyntaxErr (comparison_test decLt ["1", "2"] ["3"] false) ∧
    comparison_test decGt ["0"] ["1"] false = .ok ["True"] := by
  refine ⟨C6_comparison_semantics.2.1 decLt ["1", "2"] ["3"] false (by decide), ?_⟩
  have h := C6_comparison_semantics.2.2.1 decGt "0" ["1"] false (by decide) (by decide)
  rw [h]
  decide

/-! ## C8: single-valued variable expansion in string contexts -/

/-- C8: `expand_variables_to_str` yields the single expanded value and raises
the evaluator's SyntaxError whenever the expansion yields zero or several
values; and each of the four string contexts — delim, find/replace strings,
filter arguments, and format strings — routes through it, so a multi-valued
expansion there aborts rendering with SyntaxError. -/
theorem C8_expansion_single_value :
    (∀ (vars : Vars) (fuel : Nat) (value name : String) (vs : List String),
      expand_variables vars fuel value = .ok vs → vs.length ≠ 1 →
      isSyntaxErr (expand_variables_to_str vars fuel value name)) ∧
    (∀ (vars : Vars) (fuel : Nat) (value name s : String),
      expand_variables vars fuel value = .ok [s] →
      expand_variables_to_str vars fuel value name = .ok s) ∧
    (∀ (p : MTLParser) (vars : Vars) (fuel : Nat) (pre post field : String)
      (sf fa : Option String) (fl : Option (List String)) (d : Option String)
      (cb bc df : Option (Option Statement)) (cd : Option Conditional)
      (fr : Option (List (Option String × Option String))) (fa0 : Option String)
      (results vs : List String),
      expand_variables vars fuel (d.getD "") = .ok vs → vs.length ≠ 1 →
      isSyntaxErr (render_template_string p vars
        (.mk pre (some (.mk field sf fa fl (some d) cb bc df cd fr)) post)
        fa0 results (fuel + 1))) ∧
    (∀ (vars : Vars) (fuel : Nat) (f r : String) (vs : List String),
      expand_variables vars fuel f = .ok vs → vs.length ≠ 1 →
      isSyntaxErr (render_template_string (tableParser [("f1", ["v"])]) vars
        (.mk "" (some (.mk "f1" none none none none none none none none
          (some [(some f, some r)]))) "") none [] (fuel + 1))) ∧
    (∀ (p : MTLParser) (vars : Vars) (fuel : Nat) (f : String) (values vs : List String),
      (pySplitOn f "(").length ≥ 2 →
      pyContains (String.intercalate "(" (pySplitOn f "(").tail) ")" = true →
      expand_variables vars fuel
        (pyRstripParen (String.intercalate "(" (pySplitOn f "(").tail)) = .ok vs →
      vs.length ≠ 1 →
      isSyntaxErr (get_filter_values p vars fuel f values)) ∧
    (∀ (p : MTLParser) (vars : Vars) (fuel : Nat) (sf : String) (fa : Option String)
      (dflt : List String) (rest : List String) (vs : List String),
      sf ≠ "" → pyContains sf ":" = true →
      pySplitOn sf ":" = "str" :: rest →
      expand_variables vars fuel (String.intercalate ":" rest) = .ok vs →
      vs.length ≠ 1 →
      isSyntaxErr (get_format_values p vars fuel "format" (some sf) fa dflt)) := by
  refine ⟨?_, ?_, ?_, ?_, ?_, ?_⟩
  · intro vars fuel value name vs h hlen
    simp [expand_variables_to_str, h, hlen, isSyntaxErr, bind, Except.bind]
  · intro vars fuel value name s h
    simp [expand_variables_to_str, h, bind, Except.bind, pure, Except.pure]
  · intro p vars fuel pre post field sf fa fl d cb bc df cd fr fa0 results vs h hlen
    simp [render_template_string, expand_variables_to_str, h, hlen, isSyntaxErr,
      TemplateString.pre, TemplateString.post, TemplateString.template, Template.field,
      Template.subfield, Template.filter, Template.fieldarg, Template.delim,
      Template.combine, Template.boolc, Template.default, Template.conditional,
      Template.findreplace, bind, Except.bind, pure, Except.pure]
  · intro vars fuel f r vs h hlen
    simp [render_template_string, expand_variables_to_str, h, hlen, isSyntaxErr,
      List.mapM.loop, tableParser, mkParser, tableProvider, get_field_values, pyStartsWith,
      TemplateString.pre, TemplateString.post, TemplateString.template, Template.field,
      Template.subfield, Template.filter, Template.fieldarg, Template.delim,
      Template.combine, Template.boolc, Template.default, Template.conditional,
      Template.findreplace, bind, Except.bind, pure, Except.pure]
  · intro p vars fuel f values vs hp hc h hlen
    simp [get_filter_values, hp, hc, expand_variables_to_str, h, hlen, isSyntaxErr,
      bind, Except.bind, pure, Except.pure]
  · intro p vars fuel sf fa dflt rest vs hne hc hsplit h hlen
    simp [get_format_values, hne, hc, hsplit, expand_variables_to_str, h, hlen,
      isSyntaxErr, bind, Except.bind, pure, Except.pure]

/-- C8 witness: the variable `x` holding two values used inside a delim, a
find string, a filter argument and a format string. -/
theorem C8_expansion_single_value_witness :
    isSyntaxErr (expand_variables_to_str [("x", ["1", "2"])] 3 "%x" "delim") ∧
    expand_variables_to_str [] 3 "abc" "delim" = .ok "abc" ∧
    isSyntaxErr (render_template_string (tableParser []) [("x", ["1", "2"])]
      (.mk "" (some (.mk "f" none none none (some (some "%x")) none none none none none)) "")
      none [] 4) ∧
    isSyntaxErr (render_template_string (tableParser [("f1", ["v"])]) [("x", ["1", "2"])]
      (.mk "" (some (.mk "f1" none none none none none none none none
        (some [(some "%x", some "y")]))) "") none [] 4) ∧
    isSyntaxErr (get_filter_values (tableParser []) [("x", ["1", "2"])] 3
      "append(%x)" ["v"]) ∧
    isSyntaxErr (get_format_values (tableParser []) [("x", ["1", "2"])] 3 "format"
      (some "str:%x") none ["v"]) := by
  have hthm := C8_expansion_single_value
  refine ⟨hthm.1 [("x", ["1", "2"])] 3 "%x" "delim" ["1", "2"] (by decide) (by decide),
    hthm.2.1 [] 3 "abc" "delim" "abc" (by decide),
    hthm.2.2.1 (tableParser []) [("x", ["1", "2"])] 3 "" "" "f" none none none
      (some "%x") none none none none none none [] ["1", "2"] (by decide) (by decide),
    hthm.2.2.2.1 [("x", ["1", "2"])] 3 "%x" "y" ["1", "2"] (by decide) (by decide),
    hthm.2.2.2.2.1 (tableParser []) [("x", ["1", "2"])] 3 "append(%x)" ["v"] ["1", "2"]
      (by decide) (by decide) (by decide) (by decide),
    hthm.2.2.2.2.2 (tableParser []) [("x", ["1", "2"])] 3 "str:%x" none ["v"] ["%x"]
      ["1", "2"] (by decide) (by decide) (by decide) (by decide) (by decide)⟩

end Mdinfo
